import Mathlib

/-!
# MetaGraphia generation orchestration — verification development

Shallow embedding of the Svelte generation store (`src/lib/stores/imageGeneration.ts`,
as embedded in `backends/stable_diffusion/README.md`), the progress tracker
(`src/lib/components/ProgressTracker.svelte`), the dimension input
(`src/lib/components/DimensionInput.svelte`) and the image generator component.
Store actions become pure functions `GenerationState → GenerationState`; the
`invoke` calls to the Tauri backend become explicit `Except`/`Bool` parameters
recording whether the call succeeded. JS numbers are modelled as `ℤ` (integral
fields) and `ℚ` (fractional arithmetic).
-/

/-- `GenerationParams` from the store: the text-to-image request parameters. -/
structure GenerationParams where
  prompt : String
  img_width : ℤ
  img_height : ℤ
  num_imgs : ℤ
  num_inference_steps : ℤ
  guidance_scale : ℚ
deriving Repr, DecidableEq

/-- `GenerationProgress` from the store: a progress snapshot. -/
structure GenerationProgress where
  current_step : ℤ
  total_steps : ℤ
  status : String
deriving Repr, DecidableEq

/-- `GenerationResult` from the store: a finished generation's output. -/
structure GenerationResult where
  generated_img_path : String
  aux_output_image_path : Option String := none
deriving Repr, DecidableEq

/-- `GenerationState` from the store: the whole generation store value. -/
structure GenerationState where
  params : GenerationParams
  isGenerating : Bool
  progress : GenerationProgress
  currentResult : Option GenerationResult
  error : Option String
  history : List GenerationResult
deriving Repr, DecidableEq

/-- `defaultParams` from the store. -/
def defaultParams : GenerationParams :=
  { prompt := ""
    img_width := 512
    img_height := 512
    num_imgs := 1
    num_inference_steps := 20
    guidance_scale := 15 / 2 }

/-- The initial value passed to `writable` when the generation store is created. -/
def initialState : GenerationState :=
  { params := defaultParams
    isGenerating := false
    progress := { current_step := 0, total_steps := 20, status := "Ready" }
    currentResult := none
    error := none
    history := [] }

namespace generationActions

/-- `generationActions.updateParams` restricted to the prompt field, as used by
`handlePromptInput` in the generator component. -/
def updatePrompt (prompt : String) (store : GenerationState) : GenerationState :=
  { store with params := { store.params with prompt := prompt } }

/-- The `'width' | 'height'` discriminator of `generationActions.updateDimension`. -/
inductive Dimension where
  | width
  | height
deriving Repr, DecidableEq

/-- `generationActions.updateDimension`: writes `img_width` or `img_height`. -/
def updateDimension (dimension : Dimension) (value : ℤ)
    (store : GenerationState) : GenerationState :=
  match dimension with
  | .width => { store with params := { store.params with img_width := value } }
  | .height => { store with params := { store.params with img_height := value } }

/-- `generationActions.startGeneration`: flags generation active, clears the
error, and resets the snapshot with the request's step count as total. -/
def startGeneration (store : GenerationState) : GenerationState :=
  { store with
    isGenerating := true
    error := none
    progress :=
      { current_step := 0
        total_steps := store.params.num_inference_steps
        status := "Initializing..." } }

/-- `generationActions.updateProgress`: overwrites the snapshot with the payload. -/
def updateProgress (progress : GenerationProgress)
    (store : GenerationState) : GenerationState :=
  { store with progress := progress }

/-- `generationActions.setResult`: stores the result, stops generating, and
prepends to the history capped at 50 (`[result, ...store.history].slice(0, 50)`). -/
def setResult (result : GenerationResult) (store : GenerationState) : GenerationState :=
  { store with
    isGenerating := false
    currentResult := some result
    history := (result :: store.history).take 50 }

/-- `generationActions.setError`: records the message and stops generating. -/
def setError (error : String) (store : GenerationState) : GenerationState :=
  { store with
    isGenerating := false
    error := some error }

/-- `generationActions.reset`: back to defaults. -/
def reset (store : GenerationState) : GenerationState :=
  { store with
    params := defaultParams
    isGenerating := false
    error := none
    progress := { current_step := 0, total_steps := 20, status := "Ready" } }

end generationActions

namespace ProgressTracker

/-- The polling interval passed to `window.setInterval` in
`startProgressPolling` (milliseconds). -/
def pollIntervalMs : ℕ := 500

/-- `formatTime` from `ProgressTracker.svelte`: milliseconds to a display
string. `Math.ceil` becomes `Int.ceil` on `ℚ`; `Math.floor` on the positive
divisors 60 and 3600 is integer floor division. -/
def formatTime (milliseconds : ℚ) : String :=
  let seconds : ℤ := Int.ceil (milliseconds / 1000)
  if seconds < 60 then
    toString seconds ++ "s"
  else if seconds < 3600 then
    let minutes := seconds / 60
    let remainingSeconds := seconds % 60
    toString minutes ++ "m " ++ toString remainingSeconds ++ "s"
  else
    let hours := seconds / 3600
    let minutes := (seconds % 3600) / 60
    toString hours ++ "h " ++ toString minutes ++ "m"

/-- `updateTimeEstimate` from `ProgressTracker.svelte`, as a function of the
poll start time, the current wall clock (both ms), the snapshot, and the
previous value of the `estimatedTimeRemaining` variable (which the source
leaves untouched when the inner `stepsCompleted > 0` guard fails). -/
def updateTimeEstimate (startTime : Option ℤ) (now : ℤ)
    (progress : GenerationProgress) (prev : String) : String :=
  match startTime with
  | none => ""
  | some st =>
    if progress.current_step = 0 then ""
    else
      let elapsed : ℚ := ((now - st : ℤ) : ℚ)
      let stepsCompleted : ℚ := (progress.current_step : ℚ)
      let stepsRemaining : ℚ := ((progress.total_steps - progress.current_step : ℤ) : ℚ)
      if stepsCompleted > 0 then
        let timePerStep := elapsed / stepsCompleted
        let estimatedRemaining := timePerStep * stepsRemaining
        formatTime estimatedRemaining
      else prev

/-- `cancelGeneration` from `ProgressTracker.svelte`. The `invoke` of the
`cancel_generation` backend command is modelled by `invokeOk`: `true` when the
call resolves, `false` when it rejects (the `catch` branch). Both branches
call `generationActions.setError` with a fixed message; no later worker
response is needed for the resulting state. -/
def cancelGeneration (invokeOk : Bool) (store : GenerationState) : GenerationState :=
  if invokeOk then
    generationActions.setError "Generation cancelled by user" store
  else
    generationActions.setError "Failed to cancel generation" store

/-- State of one polling run: the generation store plus the sequence of
snapshots published to store subscribers so far. Svelte's `writable.update`
notifies subscribers on every call (a freshly spread object is never
reference-equal to the previous value), so each `updateProgress` in the
interval callback publishes. -/
structure PollRun where
  store : GenerationState
  published : List GenerationProgress
deriving Repr, DecidableEq

/-- One tick of the `setInterval` callback in `startProgressPolling`:
`invoke('get_generation_progress')` either resolves with a snapshot — which is
passed to `generationActions.updateProgress` unconditionally, publishing it —
or rejects, in which case the `catch` branch only logs and the run is
unchanged. -/
def pollTick (run : PollRun) (result : Except String GenerationProgress) : PollRun :=
  match result with
  | .ok progressData =>
      { store := generationActions.updateProgress progressData run.store
        published := run.published ++ [progressData] }
  | .error _ => run

/-- A whole polling run: fold `pollTick` over the sequence of poll results. -/
def pollRunFrom (store : GenerationState)
    (results : List (Except String GenerationProgress)) : PollRun :=
  results.foldl pollTick { store := store, published := [] }

end ProgressTracker

/-- Model of JavaScript `String.prototype.trim`: drop whitespace from both
ends (computed over the character list so it evaluates by kernel reduction). -/
def trimJs (s : String) : String :=
  String.mk (((s.toList.dropWhile Char.isWhitespace).reverse.dropWhile Char.isWhitespace).reverse)

namespace DimensionInput

/-- Model of JavaScript `parseInt(value)` for radix-10 input: leading
whitespace is skipped, an optional sign is read, then the longest prefix of
decimal digits; `none` stands for `NaN` (no digits). -/
def parseIntJs (s : String) : Option ℤ :=
  let cs := (trimJs s).toList
  let signed : ℤ × List Char :=
    match cs with
    | '-' :: rest => (-1, rest)
    | '+' :: rest => (1, rest)
    | _ => (1, cs)
  let digits := signed.2.takeWhile Char.isDigit
  if digits.isEmpty then none
  else some (signed.1 * ((digits.foldl (fun acc c => acc * 10 + (c.toNat - 48)) 0 : ℕ) : ℤ))

/-- `validateDimension` from `DimensionInput.svelte`:
`!isNaN(num) && num >= 256 && num <= 1024` for `num = parseInt(value)`. -/
def validateDimension (value : String) : Bool :=
  match parseIntJs value with
  | none => false
  | some num => decide (256 ≤ num) && decide (num ≤ 1024)

/-- `updateDimensions` from `DimensionInput.svelte`: two `updateDimension`
store actions, width first. -/
def updateDimensions (newWidth newHeight : ℤ) (store : GenerationState) : GenerationState :=
  generationActions.updateDimension .height newHeight
    (generationActions.updateDimension .width newWidth store)

/-- `handleWidthChange`: parses the input's value and applies it (keeping the
current height) only when `validateDimension` accepts it. -/
def handleWidthChange (value : String) (store : GenerationState) : GenerationState :=
  if validateDimension value then
    match parseIntJs value with
    | some newWidth => updateDimensions newWidth store.params.img_height store
    | none => store
  else store

/-- `handleHeightChange`: parses the input's value and applies it (keeping the
current width) only when `validateDimension` accepts it. -/
def handleHeightChange (value : String) (store : GenerationState) : GenerationState :=
  if validateDimension value then
    match parseIntJs value with
    | some newHeight => updateDimensions store.params.img_width newHeight store
    | none => store
  else store

/-- One entry of the `aspectRatios` preset table. -/
structure AspectPreset where
  name : String
  ratio : ℚ
  width : ℤ
  height : ℤ
deriving Repr, DecidableEq

/-- The `aspectRatios` constant from `DimensionInput.svelte`. -/
def aspectRatios : List AspectPreset :=
  [ { name := "Square", ratio := 1, width := 512, height := 512 }
  , { name := "Portrait", ratio := 3 / 4, width := 512, height := 682 }
  , { name := "Landscape", ratio := 133 / 100, width := 682, height := 512 }
  , { name := "Wide", ratio := 177 / 100, width := 768, height := 432 } ]

/-- `applyAspectRatio`: applies a preset's dimensions. -/
def applyAspectRatio (preset : AspectPreset) (store : GenerationState) : GenerationState :=
  updateDimensions preset.width preset.height store

/-- The user events the dimension inputs can deliver: a width input change, a
height input change, or a click on the i-th aspect-ratio preset button. -/
inductive DimEvent where
  | widthChange (value : String)
  | heightChange (value : String)
  | aspectPreset (i : ℕ)
deriving Repr, DecidableEq

/-- Dispatch one dimension-input event against the store (an out-of-range
preset index is no event at all). -/
def dimStep (store : GenerationState) (e : DimEvent) : GenerationState :=
  match e with
  | .widthChange value => handleWidthChange value store
  | .heightChange value => handleHeightChange value store
  | .aspectPreset i =>
      match aspectRatios.get? i with
      | some preset => applyAspectRatio preset store
      | none => store

/-- Both dimensions lie in the documented 256–1024 range. -/
def dimInBounds (p : GenerationParams) : Prop :=
  256 ≤ p.img_width ∧ p.img_width ≤ 1024 ∧ 256 ≤ p.img_height ∧ p.img_height ≤ 1024

instance (p : GenerationParams) : Decidable (dimInBounds p) :=
  inferInstanceAs (Decidable (256 ≤ p.img_width ∧ p.img_width ≤ 1024 ∧
    256 ≤ p.img_height ∧ p.img_height ≤ 1024))

end DimensionInput

namespace ImageGenerator

/-- `handleGenerate` from the image-generator component, as a function of the
store, the bound `prompt` value, and the outcome of the
`invoke('generate_image', ...)` backend call. An empty (after `trim`) prompt is
rejected up front with `setError`; otherwise `startGeneration` runs, and the
awaited invoke either resolves into `setResult` or rejects into the `catch`
branch's `setError`. Every path returns a state: no exception escapes. -/
def handleGenerate (prompt : String)
    (invokeResult : Except String GenerationResult)
    (store : GenerationState) : GenerationState :=
  if trimJs prompt = "" then
    generationActions.setError "Please enter a prompt" store
  else
    match invokeResult with
    | .ok result => generationActions.setResult result (generationActions.startGeneration store)
    | .error err => generationActions.setError err (generationActions.startGeneration store)

/-- `handleCancel` from the image-generator component: like
`ProgressTracker.cancelGeneration` but the rejection reason itself becomes the
recorded message. -/
def handleCancel (invokeResult : Except String Unit)
    (store : GenerationState) : GenerationState :=
  match invokeResult with
  | .ok _ => generationActions.setError "Generation cancelled" store
  | .error err => generationActions.setError err store

end ImageGenerator

namespace Codec

/-- A JSON scalar value, as much of JSON as the worker line protocol uses. -/
inductive JsonVal where
  | str (s : String)
  | int (n : ℤ)
  | rat (q : ℚ)
deriving Repr, DecidableEq

/-- Escape one character for inclusion in a JSON string literal. -/
def escapeChar (c : Char) : String :=
  if c = '"' then "\\\""
  else if c = '\\' then "\\\\"
  else if c = '\n' then "\\n"
  else String.singleton c

/-- Render a JSON string literal. -/
def renderString (s : String) : String :=
  "\"" ++ String.join (s.toList.map escapeChar) ++ "\""

/-- Render a JSON scalar. A non-integral rational is rendered as
numerator, a dot being implied by the denominator being a power of ten is not
needed for the properties below; `7.5` is carried exactly as `15/2`. -/
def renderVal : JsonVal → String
  | .str s => renderString s
  | .int n => toString n
  | .rat q => if q.den = 1 then toString q.num else toString q.num ++ "/" ++ toString q.den

/-- Render a JSON object from an ordered field list. -/
def renderObj (fields : List (String × JsonVal)) : String :=
  "\x7b" ++ String.intercalate ", " (fields.map fun f => renderString f.1 ++ ": " ++ renderVal f.2) ++ "\x7d"

/-- Modelled from the spec: the worker's line protocol codec lives in the
Python/Rust backend, which is not present under `src/`; only the README's
protocol description (`b2py t2im <json>` outbound, `sdbk nwim <json>` inbound)
and the frontend's invoke payload field names are. The outbound text-to-image
payload, with the exact field names the worker expects. -/
def t2imPayload (p : GenerationParams) : List (String × JsonVal) :=
  [ ("prompt", .str p.prompt)
  , ("img_width", .int p.img_width)
  , ("img_height", .int p.img_height)
  , ("num_imgs", .int p.num_imgs)
  , ("num_inference_steps", .int p.num_inference_steps)
  , ("guidance_scale", .rat p.guidance_scale) ]

/-- Modelled from the spec: the encoded outbound text-to-image command line,
source marker `b2py`, command code `t2im`, then the JSON payload. -/
def encodeT2im (p : GenerationParams) : String :=
  "b2py" ++ " " ++ "t2im" ++ " " ++ renderObj (t2imPayload p)

/-- Modelled from the spec: the inbound new-image result payload, carrying the
generated image path under `generated_img_path`. -/
def nwimPayload (path : String) : List (String × JsonVal) :=
  [ ("generated_img_path", .str path) ]

/-- Modelled from the spec: the inbound result line, destination marker
`sdbk`, response code `nwim`, then the JSON payload. -/
def nwimLine (path : String) : String :=
  "sdbk" ++ " " ++ "nwim" ++ " " ++ renderObj (nwimPayload path)

end Codec

/-!
## Claims
-/

/-- C1: for every state with a generation in progress (`isGenerating = true`),
invoking cancel leaves `isGenerating = false` with a non-empty human-readable
message recorded, whether the `cancel_generation` backend call resolves or
rejects; the resulting state needs no further worker response. -/
theorem cancel_always_records_terminal_state (store : GenerationState)
    (h : store.isGenerating = true) (invokeOk : Bool) :
    (ProgressTracker.cancelGeneration invokeOk store).isGenerating = false ∧
    ∃ msg, (ProgressTracker.cancelGeneration invokeOk store).error = some msg ∧ msg ≠ "" := by
  cases invokeOk <;>
    simp [ProgressTracker.cancelGeneration, generationActions.setError]

/-- Witness for C1 at a concrete running state. -/
theorem cancel_always_records_terminal_state_witness :
    (generationActions.startGeneration initialState).isGenerating = true ∧
    ((ProgressTracker.cancelGeneration true (generationActions.startGeneration initialState)).isGenerating = false ∧
     ∃ msg, (ProgressTracker.cancelGeneration true
        (generationActions.startGeneration initialState)).error = some msg ∧ msg ≠ "") :=
  ⟨rfl, cancel_always_records_terminal_state (generationActions.startGeneration initialState) rfl true⟩

/-- C2, counterexample: `updateProgress` copies the payload verbatim, so a
payload with `current_step` above `total_steps` puts the store's snapshot in
violation of the claimed invariant. -/
theorem updateProgress_step_bound_counterexample :
    ¬ ((generationActions.updateProgress ⟨5, 3, "Processing"⟩ initialState).progress.current_step ≤
       (generationActions.updateProgress ⟨5, 3, "Processing"⟩ initialState).progress.total_steps) := by
  decide

/-- C2, amended: `updateProgress` stores the payload unchanged, so the
snapshot satisfies `current_step ≤ total_steps` exactly when the payload does;
the store preserves the bound but does not enforce it on arbitrary payloads. -/
theorem updateProgress_preserves_step_bound (store : GenerationState)
    (p : GenerationProgress) (h : p.current_step ≤ p.total_steps) :
    (generationActions.updateProgress p store).progress.current_step ≤
    (generationActions.updateProgress p store).progress.total_steps := h

/-- Witness for the amended C2 at a concrete in-bounds payload. -/
theorem updateProgress_preserves_step_bound_witness :
    (2 : ℤ) ≤ 20 ∧
    ((generationActions.updateProgress ⟨2, 20, "Processing"⟩ initialState).progress.current_step ≤
     (generationActions.updateProgress ⟨2, 20, "Processing"⟩ initialState).progress.total_steps) :=
  ⟨by decide, updateProgress_preserves_step_bound initialState ⟨2, 20, "Processing"⟩ (by decide)⟩

/-- C5: starting a generation from an idle store yields a non-terminal state
(`isGenerating = true`) whose snapshot has step 0 of the request's
`num_inference_steps`, status `Initializing...`, and a cleared error. -/
theorem startGeneration_initializes_snapshot (store : GenerationState) (n : ℤ)
    (hidle : store.isGenerating = false) (hn : store.params.num_inference_steps = n) :
    (generationActions.startGeneration store).isGenerating = true ∧
    (generationActions.startGeneration store).progress.current_step = 0 ∧
    (generationActions.startGeneration store).progress.total_steps = n ∧
    (generationActions.startGeneration store).progress.status = "Initializing..." ∧
    (generationActions.startGeneration store).error = none := by
  subst hn
  exact ⟨rfl, rfl, rfl, rfl, rfl⟩

/-- Witness for C5 at the initial store (idle, 20 steps). -/
theorem startGeneration_initializes_snapshot_witness :
    initialState.isGenerating = false ∧
    ((generationActions.startGeneration initialState).isGenerating = true ∧
     (generationActions.startGeneration initialState).progress.current_step = 0 ∧
     (generationActions.startGeneration initialState).progress.total_steps = 20 ∧
     (generationActions.startGeneration initialState).progress.status = "Initializing..." ∧
     (generationActions.startGeneration initialState).error = none) :=
  ⟨rfl, startGeneration_initializes_snapshot initialState 20 rfl rfl⟩

/-- C10: after `setResult`, the new result heads the history, the history
never exceeds 50 entries whatever the prior history was, generation is
flagged finished, and the new result is current. -/
theorem setResult_history_invariant (result : GenerationResult) (store : GenerationState) :
    (generationActions.setResult result store).history.head? = some result ∧
    (generationActions.setResult result store).history.length ≤ 50 ∧
    (generationActions.setResult result store).isGenerating = false ∧
    (generationActions.setResult result store).currentResult = some result := by
  refine ⟨?_, ?_, rfl, rfl⟩
  · show ((result :: store.history).take 50).head? = some result
    rw [show (50 : ℕ) = 49 + 1 from rfl, List.take_succ_cons]
    rfl
  · show ((result :: store.history).take 50).length ≤ 50
    rw [List.length_take]
    exact min_le_left _ _

/-- C3, counterexample: the interval callback calls `updateProgress` on every
successful poll with no change detection, and the store notifies subscribers
on every update, so two ticks returning the same snapshot publish it twice:
an unchanged snapshot is re-emitted. -/
theorem poll_reemits_unchanged_snapshot :
    (ProgressTracker.pollRunFrom initialState
        [.ok ⟨3, 20, "Processing"⟩, .ok ⟨3, 20, "Processing"⟩]).published =
      [⟨3, 20, "Processing"⟩, ⟨3, 20, "Processing"⟩] ∧
    ¬ List.Chain' (fun a b => a ≠ b)
        (ProgressTracker.pollRunFrom initialState
          [.ok ⟨3, 20, "Processing"⟩, .ok ⟨3, 20, "Processing"⟩]).published := by
  refine ⟨rfl, ?_⟩
  intro hchain
  rw [show (ProgressTracker.pollRunFrom initialState
      [.ok ⟨3, 20, "Processing"⟩, .ok ⟨3, 20, "Processing"⟩]).published =
      [⟨3, 20, "Processing"⟩, ⟨3, 20, "Processing"⟩] from rfl] at hchain
  exact (List.chain'_cons.mp hchain).1 rfl

/-- C3, amended: polling runs on a fixed 500ms interval, and every successful
poll tick publishes the fetched snapshot to subscribers whether or not it
changed, while a failed tick publishes nothing and leaves the run unchanged. -/
theorem poll_publishes_every_tick (run : ProgressTracker.PollRun)
    (p : GenerationProgress) (e : String) :
    ProgressTracker.pollIntervalMs = 500 ∧
    (ProgressTracker.pollTick run (.ok p)).published = run.published ++ [p] ∧
    (ProgressTracker.pollTick run (.error e)) = run :=
  ⟨rfl, rfl, rfl⟩

/-- C4: on a poll tick with start time `st`, clock `now`, `c` completed steps
of `t`, the displayed estimate is the formatted value of
`elapsed / stepsCompleted * stepsRemaining = (now - st) / c * (t - c)` when
`c > 0`, and the empty string when no step has completed. -/
theorem time_estimate_formula (st now c t : ℤ) (status prev : String) :
    (0 < c →
      ProgressTracker.updateTimeEstimate (some st) now ⟨c, t, status⟩ prev =
        ProgressTracker.formatTime
          (((now : ℚ) - (st : ℚ)) / (c : ℚ) * ((t : ℚ) - (c : ℚ)))) ∧
    ProgressTracker.updateTimeEstimate (some st) now ⟨0, t, status⟩ prev = "" := by
  constructor
  · intro hc
    have h0 : c ≠ 0 := by omega
    have h1 : (0 : ℚ) < (c : ℚ) := by exact_mod_cast hc
    simp only [ProgressTracker.updateTimeEstimate, h0, if_false, h1, if_true]
    push_cast
    ring_nf
  · simp [ProgressTracker.updateTimeEstimate]

/-- Witness for C4 at a concrete tick: 4 of 20 steps after 1000ms. -/
theorem time_estimate_formula_witness :
    (0 : ℤ) < 4 ∧
    ProgressTracker.updateTimeEstimate (some 0) 1000 ⟨4, 20, "Processing"⟩ "" =
      ProgressTracker.formatTime (((1000 : ℚ) - (0 : ℚ)) / (4 : ℚ) * ((20 : ℚ) - (4 : ℚ))) :=
  ⟨by decide, (time_estimate_formula 0 1000 4 20 "Processing" "").1 (by decide)⟩

/-- The store snapshot after folding a sequence of `updateProgress` actions is
the last payload of the sequence. -/
theorem foldl_updateProgress_progress (s : GenerationState)
    (l : List GenerationProgress) (h : l ≠ []) :
    (l.foldl (fun st p => generationActions.updateProgress p st) s).progress = l.getLast h := by
  induction l generalizing s with
  | nil => exact absurd rfl h
  | cons a as ih =>
    cases as with
    | nil => rfl
    | cons b bs =>
      rw [List.foldl_cons, List.getLast_cons (List.cons_ne_nil b bs)]
      exact ih (generationActions.updateProgress a s) (List.cons_ne_nil b bs)

/-- C6: for every non-empty sequence of progress updates whose step counts are
non-decreasing and bounded by their totals, applying them to the store leaves
a snapshot whose current step is the last update's step value. -/
theorem progress_sequence_last_value (s : GenerationState)
    (l : List GenerationProgress) (h : l ≠ [])
    (hmono : List.Chain' (fun a b => a.current_step ≤ b.current_step) l)
    (hbound : ∀ p ∈ l, p.current_step ≤ p.total_steps) :
    ((l.foldl (fun st p => generationActions.updateProgress p st) s).progress).current_step =
      (l.getLast h).current_step := by
  rw [foldl_updateProgress_progress s l h]

/-- Witness for C6 on a concrete two-update monotone sequence. -/
theorem progress_sequence_last_value_witness :
    ((([⟨1, 20, "A"⟩, ⟨2, 20, "B"⟩] : List GenerationProgress).foldl
        (fun st p => generationActions.updateProgress p st) initialState).progress).current_step =
      (([⟨1, 20, "A"⟩, ⟨2, 20, "B"⟩] : List GenerationProgress).getLast (by decide)).current_step :=
  progress_sequence_last_value initialState [⟨1, 20, "A"⟩, ⟨2, 20, "B"⟩]
    (by decide) (by norm_num [List.chain'_cons]) (by decide)

/-- C7: the outbound text-to-image command is the line
`b2py t2im <json-payload>` whose payload's field names are exactly
`prompt`, `img_width`, `img_height`, `num_imgs`, `num_inference_steps`,
`guidance_scale`; the inbound result line is `sdbk nwim <json-payload>` whose
payload carries the image path under `generated_img_path`. -/
theorem protocol_line_format (p : GenerationParams) (path : String) :
    Codec.encodeT2im p = "b2py t2im " ++ Codec.renderObj (Codec.t2imPayload p) ∧
    (Codec.t2imPayload p).map Prod.fst =
      ["prompt", "img_width", "img_height", "num_imgs", "num_inference_steps", "guidance_scale"] ∧
    Codec.nwimLine path = "sdbk nwim " ++ Codec.renderObj (Codec.nwimPayload path) ∧
    (Codec.nwimPayload path).map Prod.fst = ["generated_img_path"] :=
  ⟨rfl, rfl, rfl, rfl⟩

/-- C9, counterexample: a failing progress poll is caught and only logged —
the store, and in particular its `error` field, is unchanged, so the failure
is not surfaced through a recorded error state. -/
theorem poll_failure_leaves_error_unrecorded :
    (ProgressTracker.pollTick
        { store := generationActions.startGeneration initialState, published := [] }
        (.error "network error")) =
      { store := generationActions.startGeneration initialState, published := [] } ∧
    (generationActions.startGeneration initialState).error = none :=
  ⟨rfl, rfl⟩

/-- C9, amended: a rejected `generate_image` invoke is surfaced through the
recorded error state with the rejection's message and ends the generation,
while a rejected progress poll is caught and swallowed, leaving the run
unchanged; in both cases the handler returns a state, so no exception escapes
the start or polling boundary. -/
theorem failures_recorded_or_swallowed (store : GenerationState)
    (prompt : String) (e : String) (run : ProgressTracker.PollRun)
    (hp : trimJs prompt ≠ "") :
    (ImageGenerator.handleGenerate prompt (.error e) store).error = some e ∧
    (ImageGenerator.handleGenerate prompt (.error e) store).isGenerating = false ∧
    ProgressTracker.pollTick run (.error e) = run := by
  refine ⟨?_, ?_, rfl⟩ <;>
    simp [ImageGenerator.handleGenerate, hp, generationActions.setError]

/-- Witness for the amended C9 at a concrete prompt and failure message. -/
theorem failures_recorded_or_swallowed_witness :
    trimJs "a cat" ≠ "" ∧
    ((ImageGenerator.handleGenerate "a cat" (.error "worker crashed") initialState).error =
        some "worker crashed" ∧
     (ImageGenerator.handleGenerate "a cat" (.error "worker crashed") initialState).isGenerating = false ∧
     ProgressTracker.pollTick
        { store := initialState, published := [] } (.error "worker crashed") =
        { store := initialState, published := [] }) :=
  ⟨by decide, failures_recorded_or_swallowed initialState "a cat" "worker crashed"
    { store := initialState, published := [] } (by decide)⟩

/-- A validated dimension input parses to an integer in the 256–1024 range. -/
theorem validateDimension_bounds (value : String)
    (h : DimensionInput.validateDimension value = true) :
    ∃ n, DimensionInput.parseIntJs value = some n ∧ 256 ≤ n ∧ n ≤ 1024 := by
  unfold DimensionInput.validateDimension at h
  cases hp : DimensionInput.parseIntJs value with
  | none => rw [hp] at h; exact absurd h (by simp)
  | some n =>
    rw [hp] at h
    simp only [Bool.and_eq_true, decide_eq_true_eq] at h
    exact ⟨n, rfl, h.1, h.2⟩

/-- `updateDimensions` rewrites exactly the two dimension fields. -/
theorem updateDimensions_params (w h : ℤ) (store : GenerationState) :
    (DimensionInput.updateDimensions w h store).params =
      { store.params with img_width := w, img_height := h } :=
  rfl

/-- One dimension-input event preserves the 256–1024 bounds on both
dimensions. -/
theorem dimStep_preserves_bounds (store : GenerationState)
    (e : DimensionInput.DimEvent) (hs : DimensionInput.dimInBounds store.params) :
    DimensionInput.dimInBounds ((DimensionInput.dimStep store e).params) := by
  obtain ⟨hw1, hw2, hh1, hh2⟩ := hs
  cases e with
  | widthChange value =>
    show DimensionInput.dimInBounds (DimensionInput.handleWidthChange value store).params
    unfold DimensionInput.handleWidthChange
    cases hv : DimensionInput.validateDimension value with
    | false => simpa [hv] using ⟨hw1, hw2, hh1, hh2⟩
    | true =>
      obtain ⟨n, hn, h1, h2⟩ := validateDimension_bounds value hv
      rw [if_pos rfl, hn, updateDimensions_params]
      exact ⟨h1, h2, hh1, hh2⟩
  | heightChange value =>
    show DimensionInput.dimInBounds (DimensionInput.handleHeightChange value store).params
    unfold DimensionInput.handleHeightChange
    cases hv : DimensionInput.validateDimension value with
    | false => simpa [hv] using ⟨hw1, hw2, hh1, hh2⟩
    | true =>
      obtain ⟨n, hn, h1, h2⟩ := validateDimension_bounds value hv
      rw [if_pos rfl, hn, updateDimensions_params]
      exact ⟨hw1, hw2, h1, h2⟩
  | aspectPreset i =>
    have hcase : DimensionInput.aspectRatios.get? i = none ∨
        ∃ preset, DimensionInput.aspectRatios.get? i = some preset ∧
          256 ≤ preset.width ∧ preset.width ≤ 1024 ∧
          256 ≤ preset.height ∧ preset.height ≤ 1024 := by
      match i with
      | 0 => exact Or.inr ⟨_, rfl, by decide, by decide, by decide, by decide⟩
      | 1 => exact Or.inr ⟨_, rfl, by decide, by decide, by decide, by decide⟩
      | 2 => exact Or.inr ⟨_, rfl, by decide, by decide, by decide, by decide⟩
      | 3 => exact Or.inr ⟨_, rfl, by decide, by decide, by decide, by decide⟩
      | (n + 4) => exact Or.inl rfl
    rcases hcase with hnone | ⟨preset, hsome, p1, p2, p3, p4⟩
    · show DimensionInput.dimInBounds
        (match DimensionInput.aspectRatios.get? i with
          | some preset => DimensionInput.applyAspectRatio preset store
          | none => store).params
      rw [hnone]
      exact ⟨hw1, hw2, hh1, hh2⟩
    · show DimensionInput.dimInBounds
        (match DimensionInput.aspectRatios.get? i with
          | some preset => DimensionInput.applyAspectRatio preset store
          | none => store).params
      rw [hsome]
      show DimensionInput.dimInBounds
        (DimensionInput.updateDimensions preset.width preset.height store).params
      rw [updateDimensions_params]
      exact ⟨p1, p2, p3, p4⟩

/-- C8: from the default parameters (width and height 512), any sequence of
dimension-input events — width changes, height changes, aspect-ratio preset
clicks — keeps both dimensions integers in [256, 1024]: changes are applied
only when `validateDimension` accepts the parsed value. -/
theorem dimensions_stay_in_bounds (events : List DimensionInput.DimEvent) :
    DimensionInput.dimInBounds
      ((events.foldl DimensionInput.dimStep initialState).params) := by
  suffices hgen : ∀ (s : GenerationState), DimensionInput.dimInBounds s.params →
      DimensionInput.dimInBounds ((events.foldl DimensionInput.dimStep s).params) by
    exact hgen initialState ⟨by decide, by decide, by decide, by decide⟩
  induction events with
  | nil => intro s hs; exact hs
  | cons e es ih =>
    intro s hs
    exact ih (DimensionInput.dimStep s e) (dimStep_preserves_bounds s e hs)
